import Mathlib

/-!
Verification development for the HealthInsure AI backend (backend.py).

The backend is a FastAPI service: each handler builds a prompt string,
calls the Gemini generative-language API over HTTPS, and either relays
the returned text or decodes it as JSON into a declared response model.
The embedding below is a shallow translation of backend.py:

* JSON decoding (the python json.loads of the handlers and the
  response.json() of the gateway helper) is embedded as an executable
  recursive-descent parse over the character list, producing a JValue.
* The Gemini HTTP call is a parameter: a NetBehavior maps the outgoing
  request (prompt plus structured-output flag) to either a transport
  failure or an HTTP response, mirroring the requests.post call site.
* PyMuPDF (fitz) page extraction is a parameter: a FitzBehavior maps the
  uploaded bytes to either an exception message or the list of per-page
  get_text results; the code under verification is everything around it
  (the join, the strip, the error wrapping).
* FastAPI HTTPException values are HTTPError records (status, detail).
  Each handler returns a pair: a Bool recording whether requests.post
  was reached (instrumentation for the no-network-call property; not
  part of the source return value) and an Except HTTPError result.
-/

/-- JSON values as produced by python json.loads: numbers keep their
source lexeme (python would convert to int or float; no claim depends on
the numeric value), objects keep python dict insertion order with
duplicate keys overwritten in place. -/
inductive JValue where
  | null
  | bool (b : Bool)
  | num (lexeme : String)
  | str (s : String)
  | arr (elems : List JValue)
  | obj (members : List (String × JValue))

/-- Literal left brace character (0x7b). -/
def lbrace : Char := '\x7b'

/-- Literal right brace character (0x7d). -/
def rbrace : Char := '\x7d'

/-- JSON whitespace accepted between tokens by python json.loads. -/
def jsonWs (c : Char) : Bool := c = ' ' || c = '\t' || c = '\n' || c = '\r'

def skipWs (cs : List Char) : List Char := cs.dropWhile jsonWs

/-- Hexadecimal digit value, for \uXXXX escapes. -/
def hexVal (c : Char) : Option Nat :=
  if c.isDigit then some (c.toNat - 48)
  else if 'a' ≤ c ∧ c ≤ 'f' then some (c.toNat - 87)
  else if 'A' ≤ c ∧ c ≤ 'F' then some (c.toNat - 55)
  else none

/-- Four hex digits of a \uXXXX escape. -/
def hex4 : List Char → Option (Nat × List Char)
  | a :: b :: c :: d :: rest => do
    let va ← hexVal a
    let vb ← hexVal b
    let vc ← hexVal c
    let vd ← hexVal d
    pure (va * 4096 + vb * 256 + vc * 16 + vd, rest)
  | _ => none

/-- Body of a JSON string after the opening quote, python json strict
mode: raw control characters below 0x20 are rejected, the listed escapes
are decoded, \uXXXX surrogate pairs are combined.  (A lone surrogate,
which python would keep as a lone surrogate code unit, is not a valid
Lean scalar and falls back through Char.ofNat; no claim exercises it.) -/
def parseStrBody : Nat → List Char → List Char → Option (String × List Char)
  | 0, _, _ => none
  | fuel + 1, acc, cs =>
    match cs with
    | [] => none
    | c :: rest =>
      if c = '"' then some (String.mk acc.reverse, rest)
      else if c = '\\' then
        match rest with
        | [] => none
        | e :: rest2 =>
          if e = '"' then parseStrBody fuel ('"' :: acc) rest2
          else if e = '\\' then parseStrBody fuel ('\\' :: acc) rest2
          else if e = '/' then parseStrBody fuel ('/' :: acc) rest2
          else if e = 'b' then parseStrBody fuel ('\x08' :: acc) rest2
          else if e = 'f' then parseStrBody fuel ('\x0c' :: acc) rest2
          else if e = 'n' then parseStrBody fuel ('\n' :: acc) rest2
          else if e = 'r' then parseStrBody fuel ('\x0d' :: acc) rest2
          else if e = 't' then parseStrBody fuel ('\t' :: acc) rest2
          else if e = 'u' then
            match hex4 rest2 with
            | none => none
            | some (code, rest3) =>
              if 0xD800 ≤ code ∧ code ≤ 0xDBFF then
                match rest3 with
                | '\\' :: 'u' :: rest4 =>
                  match hex4 rest4 with
                  | none => none
                  | some (lo, rest5) =>
                    if 0xDC00 ≤ lo ∧ lo ≤ 0xDFFF then
                      parseStrBody fuel
                        (Char.ofNat (0x10000 + (code - 0xD800) * 1024 + (lo - 0xDC00)) :: acc) rest5
                    else parseStrBody fuel (Char.ofNat code :: acc) rest3
                | _ => parseStrBody fuel (Char.ofNat code :: acc) rest3
              else parseStrBody fuel (Char.ofNat code :: acc) rest3
          else none
      else if c.toNat < 32 then none
      else parseStrBody fuel (c :: acc) rest

def takeDigits (cs : List Char) : List Char × List Char :=
  (cs.takeWhile Char.isDigit, cs.dropWhile Char.isDigit)

/-- JSON number lexeme, python grammar: optional minus, 0 or nonzero-led
integer part, optional fraction, optional exponent.  A dot or exponent
marker not followed by digits is left unconsumed (the scanner regex stops
before it and the stray character then fails the surrounding parse,
matching python). -/
def parseNumber (cs : List Char) : Option (String × List Char) :=
  let negSplit : Bool × List Char :=
    match cs with
    | '-' :: t => (true, t)
    | _ => (false, cs)
  let neg := negSplit.1
  let cs1 := negSplit.2
  match cs1 with
  | [] => none
  | d :: _ =>
    if ¬ d.isDigit then none
    else
      let ip := takeDigits cs1
      let intPart := ip.1
      let cs2 := ip.2
      if intPart.length > 1 ∧ intPart.head? = some '0' then none
      else
        let fp : List Char × List Char :=
          match cs2 with
          | '.' :: t =>
            match takeDigits t with
            | ([], _) => ([], cs2)
            | (ds, r) => ('.' :: ds, r)
          | _ => ([], cs2)
        let fracPart := fp.1
        let cs3 := fp.2
        let ep : List Char × List Char :=
          match cs3 with
          | e :: t =>
            if e = 'e' ∨ e = 'E' then
              match t with
              | s :: t2 =>
                if s = '+' ∨ s = '-' then
                  match takeDigits t2 with
                  | ([], _) => ([], cs3)
                  | (ds, r) => (e :: s :: ds, r)
                else
                  match takeDigits t with
                  | ([], _) => ([], cs3)
                  | (ds, r) => (e :: ds, r)
              | [] => ([], cs3)
            else ([], cs3)
          | [] => ([], cs3)
        some (String.mk ((if neg then ['-'] else []) ++ intPart ++ fracPart ++ ep.1), ep.2)

/-- Insert a key into an object under python dict semantics: an existing
key keeps its position and gets the new value, a new key is appended. -/
def objInsert (kvs : List (String × JValue)) (k : String) (v : JValue) :
    List (String × JValue) :=
  if kvs.any (fun p => p.1 = k) then
    kvs.map (fun p => if p.1 = k then (k, v) else p)
  else kvs ++ [(k, v)]

mutual

/-- One JSON value, python json.loads grammar including the non-standard
constants NaN, Infinity and -Infinity that python accepts by default. -/
def parseVal : Nat → List Char → Option (JValue × List Char)
  | 0, _ => none
  | fuel + 1, cs =>
    match skipWs cs with
    | [] => none
    | c :: rest =>
      if c = 'n' then
        match rest with
        | 'u' :: 'l' :: 'l' :: r => some (.null, r)
        | _ => none
      else if c = 't' then
        match rest with
        | 'r' :: 'u' :: 'e' :: r => some (.bool true, r)
        | _ => none
      else if c = 'f' then
        match rest with
        | 'a' :: 'l' :: 's' :: 'e' :: r => some (.bool false, r)
        | _ => none
      else if c = 'N' then
        match rest with
        | 'a' :: 'N' :: r => some (.num "NaN", r)
        | _ => none
      else if c = 'I' then
        match rest with
        | 'n' :: 'f' :: 'i' :: 'n' :: 'i' :: 't' :: 'y' :: r => some (.num "Infinity", r)
        | _ => none
      else if c = '-' then
        match rest with
        | 'I' :: 'n' :: 'f' :: 'i' :: 'n' :: 'i' :: 't' :: 'y' :: r =>
          some (.num "-Infinity", r)
        | _ => (parseNumber (c :: rest)).map (fun p => (JValue.num p.1, p.2))
      else if c = '"' then
        (parseStrBody fuel [] rest).map (fun p => (JValue.str p.1, p.2))
      else if c = '[' then
        match skipWs rest with
        | r2 :: r3 => if r2 = ']' then some (.arr [], r3) else parseElems fuel [] rest
        | [] => none
      else if c = lbrace then
        match skipWs rest with
        | r2 :: r3 => if r2 = rbrace then some (.obj [], r3) else parseMembers fuel [] rest
        | [] => none
      else if c.isDigit then
        (parseNumber (c :: rest)).map (fun p => (JValue.num p.1, p.2))
      else none

/-- Comma-separated array elements up to the closing bracket. -/
def parseElems : Nat → List JValue → List Char → Option (JValue × List Char)
  | 0, _, _ => none
  | fuel + 1, acc, cs =>
    match parseVal fuel cs with
    | none => none
    | some (v, rest) =>
      match skipWs rest with
      | ',' :: r => parseElems fuel (v :: acc) r
      | ']' :: r => some (.arr (v :: acc).reverse, r)
      | _ => none

/-- Comma-separated object members up to the closing brace. -/
def parseMembers : Nat → List (String × JValue) → List Char →
    Option (JValue × List Char)
  | 0, _, _ => none
  | fuel + 1, acc, cs =>
    match skipWs cs with
    | '"' :: rest =>
      match parseStrBody fuel [] rest with
      | none => none
      | some (k, rest2) =>
        match skipWs rest2 with
        | ':' :: rest3 =>
          match parseVal fuel rest3 with
          | none => none
          | some (v, rest4) =>
            match skipWs rest4 with
            | ',' :: r => parseMembers fuel (objInsert acc k v) r
            | c2 :: r => if c2 = rbrace then some (.obj (objInsert acc k v), r) else none
            | [] => none
        | _ => none
    | _ => none

end

/-- python json.loads: one value, surrounding whitespace allowed, any
trailing non-whitespace is an error.  The fuel bounds the recursion
depth; the depth never exceeds twice the input length, so the budget of
2 * length + 8 is never exhausted on any input. -/
def json_loads (s : String) : Option JValue :=
  let cs := s.data
  match parseVal (2 * cs.length + 8) cs with
  | some (v, rest) =>
    match skipWs rest with
    | [] => some v
    | _ => none
  | none => none

example : json_loads "true" = some (.bool true) := by rfl
example : json_loads "" = none := by rfl
example : json_loads " \x7b\"a\": [1, \"x\"]\x7d " =
    some (.obj [("a", .arr [.num "1", .str "x"])]) := by rfl
example : json_loads "\x7b\"a\": 1, \"a\": 2\x7d" =
    some (.obj [("a", .num "2")]) := by rfl
example : json_loads "hello" = none := by rfl
example : json_loads "\"a\\\"b\"" = some (.str "a\"b") := by rfl
example : json_loads "[1,2,]" = none := by rfl
example : json_loads "-12.5e3" = some (.num "-12.5e3") := by rfl

/-! ## Python-semantics helpers used by call_gemini_api -/

/-- Membership test of a string key, python `in` semantics: key lookup
for a dict, element equality for a list, substring test for a str, and a
TypeError (modelled as none) for every other value. -/
def pyContains (k : String) (v : JValue) : Option Bool :=
  match v with
  | .obj kvs => some (kvs.any (fun p => p.1 = k))
  | .arr xs => some (xs.any (fun x => match x with | .str s => s = k | _ => false))
  | .str s => some (go s.data k.data)
  | _ => none
where
  /-- Substring test on character lists (python `needle in hay`). -/
  go : List Char → List Char → Bool
  | [], needle => needle.isEmpty
  | h :: t, needle => needle.isPrefixOf (h :: t) || go t needle

/-- Python truthiness of a decoded JSON value.  A number is falsy when
its value is zero: every digit of the mantissa is 0 (the exponent is
irrelevant); NaN and the infinities are truthy. -/
def jTruthy : JValue → Bool
  | .null => false
  | .bool b => b
  | .num lex =>
    if lex.data.any (fun c => c = 'N' || c = 'I') then true
    else (lex.data.takeWhile (fun c => c ≠ 'e' ∧ c ≠ 'E')).any
      (fun c => c.isDigit && c ≠ '0')
  | .str s => s ≠ ""
  | .arr xs => ¬ xs.isEmpty
  | .obj kvs => ¬ kvs.isEmpty

/-- python indexing value[key] for a string key: dict lookup (none is a
KeyError or, for a non-dict, a TypeError). -/
def pyGetItemStr (v : JValue) (k : String) : Option JValue :=
  match v with
  | .obj kvs => kvs.lookup k
  | _ => none

/-- python indexing value[i] for an int index: list element, or the
one-character string for a str (none is an IndexError or TypeError). -/
def pyGetItemNat (v : JValue) (i : Nat) : Option JValue :=
  match v with
  | .arr xs => xs.get? i
  | .str s => (s.data.get? i).map (fun c => JValue.str (String.mk [c]))
  | _ => none

/-- The chain result["candidates"][0]["content"]["parts"][0]["text"]
from call_gemini_api; none models the KeyError / IndexError / TypeError
that the blanket except clause would catch. -/
def extractCandidateText (result : JValue) : Option JValue :=
  (pyGetItemStr result "candidates").bind fun cands =>
  (pyGetItemNat cands 0).bind fun c0 =>
  (pyGetItemStr c0 "content").bind fun content =>
  (pyGetItemStr content "parts").bind fun parts =>
  (pyGetItemNat parts 0).bind fun p0 =>
  pyGetItemStr p0 "text"

/-- Rendering of a JSON value inside an f-string (str() in python).
Containers would render with python repr syntax; no code path under a
claim reaches a non-string message, so containers are abbreviated. -/
def pyStrF : JValue → String
  | .null => "None"
  | .bool true => "True"
  | .bool false => "False"
  | .num lex => lex
  | .str s => s
  | .arr _ => "<list>"
  | .obj _ => "<dict>"

/-! ## Data model: errors, network behavior, fitz behavior -/

/-- A FastAPI HTTPException: status code and detail message. -/
structure HTTPError where
  status : Nat
  detail : String
deriving DecidableEq

/-- The outgoing Gemini request as far as backend.py determines it: the
single prompt turn and whether generation_config carries
response_mime_type application/json. -/
structure GeminiRequest where
  prompt : String
  is_json_output : Bool
deriving DecidableEq

/-- An upstream HTTP response: status code and raw body text. -/
structure HttpResp where
  status : Nat
  body : String
deriving DecidableEq

/-- Outcome of the requests.post call: a transport-level
RequestException (timeout, connection failure) carrying its message, or
an HTTP response. -/
inductive NetResult where
  | noConn (msg : String)
  | resp (r : HttpResp)

/-- The behavior of the external network, a parameter of the embedding:
what requests.post would yield for a given outgoing request. -/
def NetBehavior := GeminiRequest → NetResult

/-- The behavior of PyMuPDF page extraction, a parameter of the
embedding: for the uploaded bytes, either an exception message (fitz
failed to open or read the stream) or the list of per-page get_text
results in document order. -/
def FitzBehavior := List Nat → Except String (List String)

/-- The fixed Gemini endpoint URL from backend.py. -/
def gemini_url : String :=
  "https://generativelanguage.googleapis.com/v1beta/models/gemini-1.5-flash-latest:generateContent"

/-- Message of the requests HTTPError raised by response.raise_for_status
for a 4xx/5xx status.  (requests also interpolates the server-provided
reason phrase, which the code under embedding does not determine; it is
omitted here.) -/
def raise_for_status_msg (status : Nat) : String :=
  toString status ++
    (if status < 500 then " Client Error for url: " else " Server Error for url: ") ++
    gemini_url

/-! ## call_gemini_api -/

/-- Embedding of call_gemini_api from backend.py.  The first component
of the result records whether requests.post was reached (instrumentation
for the no-network-call property; not part of the source return value).

Control flow mirrored from the source:
* no key configured: HTTPException 500 before any network activity;
* RequestException (transport failure, a 4xx/5xx raised by
  raise_for_status, or a malformed JSON body, which in requests is a
  JSONDecodeError subclassing RequestException): HTTPException 503;
* the two HTTPExceptions raised inside the try block (remote error
  message, missing candidates) are themselves caught by the blanket
  except clause and re-wrapped as 500 Unexpected error;
* any exception from the candidate-extraction chain or from applying
  dict operations to a non-dict body: 500 Unexpected error. -/
def call_gemini_api (key : Option String) (net : NetBehavior) (prompt : String)
    (is_json_output : Bool) : Bool × Except HTTPError String :=
  match key with
  | none => (false, .error ⟨500, "GEMINI_API_KEY not configured."⟩)
  | some _ =>
    match net ⟨prompt, is_json_output⟩ with
    | .noConn msg => (true, .error ⟨503, "Could not connect to AI service: " ++ msg⟩)
    | .resp r =>
      if 400 ≤ r.status ∧ r.status < 600 then
        (true, .error ⟨503, "Could not connect to AI service: " ++
          raise_for_status_msg r.status⟩)
      else
        match json_loads r.body with
        | none =>
          (true, .error ⟨503, "Could not connect to AI service: " ++
            "Expecting value: line 1 column 1 (char 0)"⟩)
        | some result =>
          match pyContains "candidates" result with
          | none => (true, .error ⟨500,
              "Unexpected error: argument of type is not iterable"⟩)
          | some b =>
            if b then
              match result with
              | .obj kvs =>
                match kvs.lookup "candidates" with
                | none => (true, .error ⟨500, "Unexpected error: KeyError"⟩)
                | some cand =>
                  if jTruthy cand then
                    match extractCandidateText result with
                    | some (.str t) => (true, .ok t)
                    | some _ =>
                      -- python would return the non-string part value itself,
                      -- which every caller then fails on; modelled as the
                      -- internal failure it becomes
                      (true, .error ⟨500, "Unexpected error: non-string text part"⟩)
                    | none => (true, .error ⟨500,
                        "Unexpected error: missing field in response structure"⟩)
                  else geminiErrorBranch result
              | _ =>
                -- membership held for a list or str body, but indexing it
                -- with a string key raises TypeError
                (true, .error ⟨500,
                  "Unexpected error: indices must be integers"⟩)
            else geminiErrorBranch result
where
  /-- The elif branch: "error" in result, and the final else.  The
  HTTPExceptions raised there are caught by the enclosing blanket except
  clause and re-wrapped, hence the doubled prefixes. -/
  geminiErrorBranch (result : JValue) : Bool × Except HTTPError String :=
    match pyContains "error" result with
    | none => (true, .error ⟨500, "Unexpected error: argument of type is not iterable"⟩)
    | some b =>
      if b then
        match result with
        | .obj kvs =>
          match kvs.lookup "error" with
          | some (.obj ekvs) =>
            let msg := match ekvs.lookup "message" with
              | some m => pyStrF m
              | none => "Unknown error"
            (true, .error ⟨500, "Unexpected error: 500: Gemini API Error: " ++ msg⟩)
          | some _ => (true, .error ⟨500,
              "Unexpected error: object has no attribute get"⟩)
          | none => (true, .error ⟨500, "Unexpected error: KeyError"⟩)
        | _ => (true, .error ⟨500, "Unexpected error: indices must be integers"⟩)
      else
        (true, .error ⟨500,
          "Unexpected error: 500: Invalid response structure from Gemini API."⟩)

/-! ## Document extraction (upload-doc) -/

/-- Whitespace stripped by python str.strip: the ASCII whitespace
characters (str.strip also strips some further unicode whitespace, which
no claim exercises). -/
def pyWs (c : Char) : Bool :=
  c = ' ' || c = '\t' || c = '\n' || c = '\x0d' || c = '\x0b' || c = '\x0c'

/-- python s.strip(): drop leading and trailing whitespace. -/
def pyStrip (s : String) : String :=
  String.mk (((s.data.dropWhile pyWs).reverse.dropWhile pyWs).reverse)

/-- The extraction step of upload_doc:
"".join([page.get_text() for page in doc]).strip() — concatenate the
per-page texts in page order with no separator, then strip. -/
def extract_text (pages : List String) : String :=
  pyStrip (String.join pages)

/-! ## Prompt builders (the f-string templates of backend.py, verbatim
including indentation; doubled braces in the f-strings are single brace
characters here) -/

/-- /ask template when a document context is given. -/
def ask_prompt_with_context (document_context question : String) : String :=
  "\n        You are a helpful insurance assistant. A user uploaded a policy and asked:\n        Context:\n        ---\n        "
    ++ document_context
    ++ "\n        ---\n        Question: " ++ question ++ "\n        Answer:\n        "

/-- /ask template for a general question. -/
def ask_prompt_general (question : String) : String :=
  "\n        You are a helpful insurance assistant. The user asked a general health insurance question:\n        Question: "
    ++ question ++ "\n        Answer:\n        "

/-- The uploaded bill of /check-claim: FastAPI hands the handler an
UploadFile with a filename and byte content (or None). -/
structure Bill where
  filename : String
  content : List Nat
deriving DecidableEq

/-- /check-claim template.  The bill enters only through its python
truthiness: an UploadFile object is truthy, None is falsy. -/
def check_claim_prompt (claim_type document_context : String) (bill : Option Bill) :
    String :=
  "\n    You are an expert insurance claim analyst. Evaluate the following claim based on the policy:\n\n    Context:\n    ---\n    "
    ++ document_context
    ++ "\n    ---\n    Claim Type: " ++ claim_type
    ++ "\n    Bill Attached: " ++ (if bill.isSome then "Yes" else "No")
    ++ "\n\n    Return JSON with:\n    - decision: Eligible/Ineligible/More Information Needed\n    - reason: explanation\n    - required_documents: list of required documents\n\n    JSON:\n    "

/-- /recommend-policy template. -/
def recommend_policy_prompt (user_age user_gender health_conditions coverage budget :
    String) : String :=
  "\n    Suggest 2-3 health insurance policies for:\n    - Age: " ++ user_age
    ++ "\n    - Gender: " ++ user_gender
    ++ "\n    - Conditions: " ++ health_conditions
    ++ "\n    - Coverage: " ++ coverage
    ++ "\n    - Budget: ₹" ++ budget
    ++ "\n\n    Return JSON with:\n    recommendations: [\n      \x7bpolicy_name, reasoning, key_features (list), estimated_premium\x7d\n    ]\n    "

/-- /find-hospitals template. -/
def find_hospitals_prompt (location : String) : String :=
  "\n    Find up to 5 major cashless network hospitals in \"" ++ location
    ++ "\" (India).\n    Return JSON with:\n    hospitals: [\x7b name, address, specialties (list) \x7d]\n    "

/-- /analytics template (a plain string, no interpolation). -/
def analytics_prompt : String :=
  "\n    Generate realistic health insurance analytics data for an Indian dashboard:\n\n    Return valid JSON:\n    \x7b\n      \"claim_status_distribution\": \x7b\n        \"labels\": [\"Approved\", \"Pending\", \"Rejected\"],\n        \"data\": [int, int, int]\n      \x7d,\n      \"monthly_claims\": \x7b\n        \"labels\": [\"March\", \"April\", \"May\", \"June\", \"July\", \"August\"],\n        \"data\": [int, int, int, int, int, int]\n      \x7d,\n      \"key_metrics\": \x7b\n        \"total_claims\": int,\n        \"approval_rate\": float,\n        \"avg_claim_amount\": int\n      \x7d\n    \x7d\n    "

/-- The summarization prompt of /upload-doc: the template followed by at
most the first 8000 characters of the extracted text (python text[:8000]
slices by code points, as String.take does). -/
def upload_summary_prompt (text : String) : String :=
  "Summarize the following insurance policy in bullet points:\n\n" ++ text.take 8000

/-! ## Response-model validation (the pydantic response_model step that
FastAPI applies to each handler's returned dict).  Validation extracts
the declared fields with their declared types and rebuilds the object in
declared field order, dropping unknown keys; a value already in declared
shape is returned unchanged.  (Coercions that a lax pydantic might apply
to mistyped fields are outside every claim, which only quantifies over
values that match the declared shape.) -/

def isJStr : JValue → Bool
  | .str _ => true
  | _ => false

def isJObj : JValue → Bool
  | .obj _ => true
  | _ => false

/-- ClaimCheckResponse: decision, reason, required_documents. -/
def validate_claim_check (v : JValue) : Option JValue :=
  match v with
  | .obj kvs =>
    match kvs.lookup "decision", kvs.lookup "reason", kvs.lookup "required_documents" with
    | some (.str d), some (.str r), some (.arr ds) =>
      if ds.all isJStr then
        some (.obj [("decision", .str d), ("reason", .str r),
          ("required_documents", .arr ds)])
      else none
    | _, _, _ => none
  | _ => none

/-- PolicyRecommendation: policy_name, reasoning, key_features,
estimated_premium. -/
def validate_recommendation (v : JValue) : Option JValue :=
  match v with
  | .obj kvs =>
    match kvs.lookup "policy_name", kvs.lookup "reasoning",
        kvs.lookup "key_features", kvs.lookup "estimated_premium" with
    | some (.str n), some (.str r), some (.arr ks), some (.str p) =>
      if ks.all isJStr then
        some (.obj [("policy_name", .str n), ("reasoning", .str r),
          ("key_features", .arr ks), ("estimated_premium", .str p)])
      else none
    | _, _, _, _ => none
  | _ => none

/-- RecommendPolicyResponse: recommendations, a list of
PolicyRecommendation. -/
def validate_recommend_policy (v : JValue) : Option JValue :=
  match v with
  | .obj kvs =>
    match kvs.lookup "recommendations" with
    | some (.arr rs) =>
      (rs.mapM validate_recommendation).map (fun rs2 => .obj [("recommendations", .arr rs2)])
    | _ => none
  | _ => none

/-- Hospital: name, address, specialties. -/
def validate_hospital (v : JValue) : Option JValue :=
  match v with
  | .obj kvs =>
    match kvs.lookup "name", kvs.lookup "address", kvs.lookup "specialties" with
    | some (.str n), some (.str a), some (.arr sp) =>
      if sp.all isJStr then
        some (.obj [("name", .str n), ("address", .str a), ("specialties", .arr sp)])
      else none
    | _, _, _ => none
  | _ => none

/-- FindHospitalsResponse: hospitals, a list of Hospital. -/
def validate_find_hospitals (v : JValue) : Option JValue :=
  match v with
  | .obj kvs =>
    match kvs.lookup "hospitals" with
    | some (.arr hs) =>
      (hs.mapM validate_hospital).map (fun hs2 => .obj [("hospitals", .arr hs2)])
    | _ => none
  | _ => none

/-- AnalyticsResponse: three fields, each an arbitrary dict. -/
def validate_analytics (v : JValue) : Option JValue :=
  match v with
  | .obj kvs =>
    match kvs.lookup "claim_status_distribution", kvs.lookup "monthly_claims",
        kvs.lookup "key_metrics" with
    | some csd, some mc, some km =>
      if isJObj csd && isJObj mc && isJObj km then
        some (.obj [("claim_status_distribution", csd), ("monthly_claims", mc),
          ("key_metrics", km)])
      else none
    | _, _, _ => none
  | _ => none

/-- The tail of every structured handler: json.loads the gateway text
(a JSONDecodeError becomes HTTPException 500 "AI did not return valid
JSON."), then the response_model validation (whose failure FastAPI turns
into a 500 Internal Server Error). -/
def parse_structured (validate : JValue → Option JValue) (s : String) :
    Except HTTPError JValue :=
  match json_loads s with
  | none => .error ⟨500, "AI did not return valid JSON."⟩
  | some v =>
    match validate v with
    | some w => .ok w
    | none => .error ⟨500, "Internal Server Error"⟩

/-! ## Handlers -/

/-- /ask: choose the template by python truthiness of document_context
(absent or empty string selects the general template), call the gateway,
relay the answer text. -/
def ask_question (key : Option String) (net : NetBehavior) (question : String)
    (document_context : Option String) : Bool × Except HTTPError String :=
  let prompt :=
    match document_context with
    | some ctx => if ctx = "" then ask_prompt_general question
                  else ask_prompt_with_context ctx question
    | none => ask_prompt_general question
  call_gemini_api key net prompt false

/-- UploadDocResponse of /upload-doc. -/
structure UploadDocResponse where
  status : String
  filename : String
  summary : String
  full_text : String
deriving DecidableEq

/-- /upload-doc.  The content-type gate precedes reading and extraction.
Everything after it runs inside a try block whose blanket except clause
catches every exception — including the HTTPExceptions the block itself
raises (the 400 for an empty document and whatever call_gemini_api
raises) — and re-raises HTTPException 500 with the stringified original
exception (str of an HTTPException is "status: detail") appended to
"PDF processing error: ". -/
def upload_doc (key : Option String) (net : NetBehavior) (fitz : FitzBehavior)
    (filename content_type : String) (contents : List Nat) :
    Bool × Except HTTPError UploadDocResponse :=
  if content_type ≠ "application/pdf" then
    (false, .error ⟨400, "Only PDF files are allowed."⟩)
  else
    match fitz contents with
    | .error m => (false, .error ⟨500, "PDF processing error: " ++ m⟩)
    | .ok pages =>
      let text := extract_text pages
      if text = "" then
        -- the raised HTTPException(400, "PDF is empty or non-readable.")
        -- is caught by the blanket except clause and re-wrapped
        (false, .error ⟨500, "PDF processing error: 400: PDF is empty or non-readable."⟩)
      else
        match call_gemini_api key net (upload_summary_prompt text) false with
        | (called, .error e) =>
          (called, .error ⟨500, "PDF processing error: " ++ toString e.status
            ++ ": " ++ e.detail⟩)
        | (called, .ok summary) =>
          (called, .ok ⟨"success", filename, summary, text⟩)

/-- /check-claim. -/
def check_claim (key : Option String) (net : NetBehavior)
    (claim_type document_context : String) (bill : Option Bill) :
    Bool × Except HTTPError JValue :=
  match call_gemini_api key net (check_claim_prompt claim_type document_context bill) true with
  | (called, .error e) => (called, .error e)
  | (called, .ok s) => (called, parse_structured validate_claim_check s)

/-- /recommend-policy. -/
def recommend_policy (key : Option String) (net : NetBehavior)
    (user_age user_gender health_conditions coverage budget : String) :
    Bool × Except HTTPError JValue :=
  match call_gemini_api key net
      (recommend_policy_prompt user_age user_gender health_conditions coverage budget)
      true with
  | (called, .error e) => (called, .error e)
  | (called, .ok s) => (called, parse_structured validate_recommend_policy s)

/-- /find-hospitals. -/
def find_hospitals (key : Option String) (net : NetBehavior) (location : String) :
    Bool × Except HTTPError JValue :=
  match call_gemini_api key net (find_hospitals_prompt location) true with
  | (called, .error e) => (called, .error e)
  | (called, .ok s) => (called, parse_structured validate_find_hospitals s)

/-- /analytics. -/
def get_analytics_data (key : Option String) (net : NetBehavior) :
    Bool × Except HTTPError JValue :=
  match call_gemini_api key net analytics_prompt true with
  | (called, .error e) => (called, .error e)
  | (called, .ok s) => (called, parse_structured validate_analytics s)

/-! ## Concrete behaviors for witnesses and counterexamples -/

/-- Escape a string for inclusion in a JSON string literal (quotes and
backslashes; the test inputs contain no control characters). -/
def escapeForJson (s : String) : String :=
  String.mk (s.data.foldr
    (fun c acc =>
      if c = '"' then '\\' :: '"' :: acc
      else if c = '\\' then '\\' :: '\\' :: acc
      else c :: acc) [])

/-- A well-formed Gemini success body whose single candidate text is the
given string. -/
def candidateBody (inner : String) : String :=
  "\x7b\"candidates\": [\x7b\"content\": \x7b\"parts\": [\x7b\"text\": \""
    ++ escapeForJson inner ++ "\"\x7d]\x7d\x7d]\x7d"

/-- A network that answers every request 200 with the given candidate
text. -/
def netOk (inner : String) : NetBehavior :=
  fun _ => .resp ⟨200, candidateBody inner⟩

/-- A network that answers every request with the given status and a
remote error body. -/
def netStatus (status : Nat) : NetBehavior :=
  fun _ => .resp ⟨status, "\x7b\"error\": \x7b\"message\": \"quota exceeded\"\x7d\x7d"⟩

/-- A network that is never reached (its answer marks the violation). -/
def netUnused : NetBehavior := fun _ => .noConn "unreachable"

/-- A fitz behavior returning the given pages for every input. -/
def fitzPages (pages : List String) : FitzBehavior := fun _ => .ok pages

example : call_gemini_api (some "k") (netOk "hello") "p" false = (true, .ok "hello") := by
  rfl
example : call_gemini_api (some "k") (netOk "say \"hi\"") "p" true =
    (true, .ok "say \"hi\"") := by rfl
example : call_gemini_api none netUnused "p" true =
    (false, .error ⟨500, "GEMINI_API_KEY not configured."⟩) := by rfl

/-! ## Claim theorems -/

/-- C1: the claim says an uploaded PDF whose extracted text is empty
after trimming fails with EmptyDocument and HTTP 400.  The code does
raise HTTPException(400, "PDF is empty or non-readable.") — but it
raises it inside the try block whose blanket except Exception clause
catches it and re-raises HTTPException 500 with the stringified original
exception.  At a concrete empty-after-trim PDF the handler therefore
answers 500, not 400: the code contradicts its own raised status. -/
theorem spec_C1_empty_document_actually_500 :
    upload_doc (some "key") netUnused (fitzPages ["  ", "\n"]) "scan.pdf"
      "application/pdf" [37, 80, 68, 70] =
      (false, .error ⟨500, "PDF processing error: 400: PDF is empty or non-readable."⟩) := by
  rfl

/-- C2 counterexample: a gateway call whose upstream response has status
500 (non-2xx, remote error message present in the body) is answered with
HTTP 503 and a generic connection message — not the HTTP 500 UpstreamError
carrying the remote message that the claim states.  raise_for_status
raises an HTTPError, a subclass of RequestException, so the non-2xx case
lands in the transport-failure except clause. -/
theorem spec_C2_counterexample :
    call_gemini_api (some "key") (netStatus 500) "prompt" true =
      (true, .error ⟨503, "Could not connect to AI service: "
        ++ raise_for_status_msg 500⟩) := by
  rfl

/-- C2 (amended): for every gateway call whose upstream HTTP response
has a 4xx or 5xx status, the client fails with HTTP 503 and a generic
connection-failure message; the remote error message in the body is not
read on this path. -/
theorem spec_C2_non2xx_gives_503 (k : String) (net : NetBehavior) (p : String)
    (j : Bool) (r : HttpResp) (hnet : net ⟨p, j⟩ = .resp r)
    (h4 : 400 ≤ r.status) (h6 : r.status < 600) :
    call_gemini_api (some k) net p j =
      (true, .error ⟨503, "Could not connect to AI service: "
        ++ raise_for_status_msg r.status⟩) := by
  simp only [call_gemini_api, hnet]
  rw [if_pos ⟨h4, h6⟩]

theorem spec_C2_witness :
    call_gemini_api (some "key") (netStatus 404) "p" true =
      (true, .error ⟨503, "Could not connect to AI service: "
        ++ raise_for_status_msg 404⟩) :=
  spec_C2_non2xx_gives_503 "key" (netStatus 404) "p" true
    ⟨404, "\x7b\"error\": \x7b\"message\": \"quota exceeded\"\x7d\x7d"⟩
    rfl (by decide) (by decide)

/-- One hospital entry of a stubbed gateway answer. -/
def hospEntry (n a : String) : String :=
  "\x7b\"name\": \"" ++ n ++ "\", \"address\": \"" ++ a ++ "\", \"specialties\": []\x7d"

/-- A gateway answer containing six hospitals. -/
def sixHospitalsJson : String :=
  "\x7b\"hospitals\": [" ++ String.intercalate ", "
    [hospEntry "H1" "A1", hospEntry "H2" "A2", hospEntry "H3" "A3",
     hospEntry "H4" "A4", hospEntry "H5" "A5", hospEntry "H6" "A6"] ++ "]\x7d"

/-- The decoded form of one hospital entry. -/
def hospVal (n a : String) : JValue :=
  .obj [("name", .str n), ("address", .str a), ("specialties", .arr [])]

/-- The decoded form of the six-hospital answer. -/
def sixHospitalsVal : JValue :=
  .obj [("hospitals", .arr [hospVal "H1" "A1", hospVal "H2" "A2", hospVal "H3" "A3",
    hospVal "H4" "A4", hospVal "H5" "A5", hospVal "H6" "A6"])]

/-- Number of entries in the hospitals field of a response value. -/
def hospitalsCount (v : JValue) : Nat :=
  match v with
  | .obj kvs =>
    match kvs.lookup "hospitals" with
    | some (.arr hs) => hs.length
    | _ => 0
  | _ => 0

set_option maxRecDepth 8000 in
/-- C3 counterexample: when the gateway returns six well-formed
hospitals, /find-hospitals succeeds and its response carries all six —
more than the at-most-5 bound the claim states for every successful
response.  The bound exists only inside the prompt text. -/
theorem spec_C3_counterexample :
    find_hospitals (some "key") (netOk sixHospitalsJson) "Mumbai" =
      (true, .ok sixHospitalsVal)
    ∧ hospitalsCount sixHospitalsVal = 6 := by
  exact ⟨by rfl, by rfl⟩

/-- C3 (amended): a successful /find-hospitals response carries exactly
the hospitals list the gateway returned, however long; the limit of 5 is
only requested in the prompt, not enforced by the handler. -/
theorem spec_C3_hospitals_passthrough (key : Option String) (net : NetBehavior)
    (location s : String) (v : JValue)
    (hgw : call_gemini_api key net (find_hospitals_prompt location) true = (true, .ok s))
    (hjson : json_loads s = some v)
    (hval : validate_find_hospitals v = some v) :
    find_hospitals key net location = (true, .ok v) := by
  unfold find_hospitals
  rw [hgw]
  simp only [parse_structured, hjson, hval]

set_option maxRecDepth 8000 in
theorem spec_C3_witness :
    find_hospitals (some "key") (netOk sixHospitalsJson) "Delhi" =
      (true, .ok sixHospitalsVal) :=
  spec_C3_hospitals_passthrough (some "key") (netOk sixHospitalsJson) "Delhi"
    sixHospitalsJson sixHospitalsVal rfl rfl rfl

/-- C4: with no API key configured, every AI-backed endpoint fails with
the configuration-error message mapped to HTTP 500 and requests.post is
never reached (the Bool component stays false).  For /upload-doc the
blanket except clause additionally wraps the message, still as a 500
carrying the configuration-error text. -/
theorem spec_C4_no_key_no_network :
    (∀ (net : NetBehavior) (q : String) (dc : Option String),
      ask_question none net q dc =
        (false, .error ⟨500, "GEMINI_API_KEY not configured."⟩))
  ∧ (∀ (net : NetBehavior) (ct dc : String) (b : Option Bill),
      check_claim none net ct dc b =
        (false, .error ⟨500, "GEMINI_API_KEY not configured."⟩))
  ∧ (∀ (net : NetBehavior) (a g hc cov bu : String),
      recommend_policy none net a g hc cov bu =
        (false, .error ⟨500, "GEMINI_API_KEY not configured."⟩))
  ∧ (∀ (net : NetBehavior) (loc : String),
      find_hospitals none net loc =
        (false, .error ⟨500, "GEMINI_API_KEY not configured."⟩))
  ∧ (∀ (net : NetBehavior),
      get_analytics_data none net =
        (false, .error ⟨500, "GEMINI_API_KEY not configured."⟩))
  ∧ (∀ (net : NetBehavior) (fitz : FitzBehavior) (fn : String) (bytes : List Nat)
      (pages : List String), fitz bytes = .ok pages → extract_text pages ≠ "" →
      upload_doc none net fitz fn "application/pdf" bytes =
        (false, .error ⟨500, "PDF processing error: 500: GEMINI_API_KEY not configured."⟩)) := by
  refine ⟨fun net q dc => ?_, fun net ct dc b => rfl, fun net a g hc cov bu => rfl,
    fun net loc => rfl, fun net => rfl, fun net fitz fn bytes pages hf hne => ?_⟩
  · unfold ask_question
    cases dc with
    | none => rfl
    | some ctx =>
      by_cases hc : ctx = "" <;> simp [hc] <;> rfl
  · unfold upload_doc
    rw [if_neg (by simp)]
    rw [hf]
    simp only []
    rw [if_neg hne]
    rfl

theorem spec_C4_witness :
    ask_question none netUnused "What is copay?" none =
      (false, .error ⟨500, "GEMINI_API_KEY not configured."⟩)
    ∧ upload_doc none netUnused (fitzPages ["policy text"]) "f.pdf"
        "application/pdf" [1] =
        (false, .error ⟨500, "PDF processing error: 500: GEMINI_API_KEY not configured."⟩) :=
  ⟨spec_C4_no_key_no_network.1 netUnused "What is copay?" none,
   spec_C4_no_key_no_network.2.2.2.2.2 netUnused (fitzPages ["policy text"]) "f.pdf"
     [1] ["policy text"] rfl (by decide)⟩

/-- C5: an upload whose declared content type is not application/pdf is
rejected with HTTP 400 "Only PDF files are allowed." before anything
else runs: the answer is the same for every network, every fitz
behavior and every byte content, and the network flag stays false. -/
theorem spec_C5_non_pdf_rejected (key : Option String) (net : NetBehavior)
    (fitz : FitzBehavior) (fn ct : String) (bytes : List Nat)
    (h : ct ≠ "application/pdf") :
    upload_doc key net fitz fn ct bytes =
      (false, .error ⟨400, "Only PDF files are allowed."⟩) := by
  unfold upload_doc
  rw [if_pos h]

theorem spec_C5_witness :
    upload_doc (some "key") netUnused (fitzPages ["x"]) "notes.txt" "text/plain" [1, 2] =
      (false, .error ⟨400, "Only PDF files are allowed."⟩) :=
  spec_C5_non_pdf_rejected (some "key") netUnused (fitzPages ["x"]) "notes.txt"
    "text/plain" [1, 2] (by decide)

/-- Helper: the success path of /upload-doc.  When the declared type is
PDF, fitz yields pages whose joined, stripped text is non-empty, and the
gateway call for the summary prompt succeeds, the handler returns
status success with the extracted text as full_text. -/
theorem upload_doc_gateway_ok (key : Option String) (net : NetBehavior)
    (fitz : FitzBehavior) (fn : String) (bytes : List Nat) (pages : List String)
    (summary : String) (hf : fitz bytes = .ok pages)
    (hne : extract_text pages ≠ "")
    (hgw : call_gemini_api key net (upload_summary_prompt (extract_text pages)) false =
      (true, .ok summary)) :
    upload_doc key net fitz fn "application/pdf" bytes =
      (true, .ok ⟨"success", fn, summary, extract_text pages⟩) := by
  unfold upload_doc
  rw [if_neg (by simp)]
  rw [hf]
  simp only []
  rw [if_neg hne]
  rw [hgw]

/-- C6: for PDF bytes whose pages carry extractable text (the joined and
stripped text is non-empty), the extractor result is exactly the page
texts concatenated in page order with no separator and stripped of
surrounding whitespace, it is non-empty, and /upload-doc returns it
untouched as full_text. -/
theorem spec_C6_extraction_is_ordered_concat_trimmed (key : Option String)
    (net : NetBehavior) (fitz : FitzBehavior) (fn : String) (bytes : List Nat)
    (pages : List String) (summary : String) (hf : fitz bytes = .ok pages)
    (hne : extract_text pages ≠ "")
    (hgw : call_gemini_api key net (upload_summary_prompt (extract_text pages)) false =
      (true, .ok summary)) :
    upload_doc key net fitz fn "application/pdf" bytes =
      (true, .ok ⟨"success", fn, summary, extract_text pages⟩)
    ∧ extract_text pages = pyStrip (String.join pages)
    ∧ extract_text pages ≠ "" :=
  ⟨upload_doc_gateway_ok key net fitz fn bytes pages summary hf hne hgw, rfl, hne⟩

theorem spec_C6_witness :
    upload_doc (some "k") (netOk "- bullet") (fitzPages ["Hello ", "World\n"]) "p.pdf"
      "application/pdf" [1] =
      (true, .ok ⟨"success", "p.pdf", "- bullet", extract_text ["Hello ", "World\n"]⟩)
    ∧ extract_text ["Hello ", "World\n"] = pyStrip (String.join ["Hello ", "World\n"])
    ∧ extract_text ["Hello ", "World\n"] ≠ "" :=
  spec_C6_extraction_is_ordered_concat_trimmed (some "k") (netOk "- bullet")
    (fitzPages ["Hello ", "World\n"]) "p.pdf" [1] ["Hello ", "World\n"] "- bullet"
    rfl (by decide) rfl

/-- C7: whenever the gateway answers a structured endpoint with text
that decodes as JSON already in the declared response shape (validation
returns it unchanged), the handler returns exactly that decoded value:
no field is transformed on the pass-through. -/
theorem spec_C7_structured_passthrough :
    (∀ (key : Option String) (net : NetBehavior) (ct dc : String) (b : Option Bill)
      (s : String) (v : JValue),
      call_gemini_api key net (check_claim_prompt ct dc b) true = (true, .ok s) →
      json_loads s = some v → validate_claim_check v = some v →
      check_claim key net ct dc b = (true, .ok v))
  ∧ (∀ (key : Option String) (net : NetBehavior) (a g hc cov bu : String)
      (s : String) (v : JValue),
      call_gemini_api key net (recommend_policy_prompt a g hc cov bu) true = (true, .ok s) →
      json_loads s = some v → validate_recommend_policy v = some v →
      recommend_policy key net a g hc cov bu = (true, .ok v))
  ∧ (∀ (key : Option String) (net : NetBehavior) (loc : String) (s : String) (v : JValue),
      call_gemini_api key net (find_hospitals_prompt loc) true = (true, .ok s) →
      json_loads s = some v → validate_find_hospitals v = some v →
      find_hospitals key net loc = (true, .ok v))
  ∧ (∀ (key : Option String) (net : NetBehavior) (s : String) (v : JValue),
      call_gemini_api key net analytics_prompt true = (true, .ok s) →
      json_loads s = some v → validate_analytics v = some v →
      get_analytics_data key net = (true, .ok v)) := by
  refine ⟨fun key net ct dc b s v hgw hjson hval => ?_,
    fun key net a g hc cov bu s v hgw hjson hval => ?_,
    fun key net loc s v hgw hjson hval => ?_,
    fun key net s v hgw hjson hval => ?_⟩
  · unfold check_claim
    rw [hgw]
    simp only [parse_structured, hjson, hval]
  · unfold recommend_policy
    rw [hgw]
    simp only [parse_structured, hjson, hval]
  · unfold find_hospitals
    rw [hgw]
    simp only [parse_structured, hjson, hval]
  · unfold get_analytics_data
    rw [hgw]
    simp only [parse_structured, hjson, hval]

/-- A stubbed in-shape answer for /check-claim. -/
def ccJson : String :=
  "\x7b\"decision\": \"Eligible\", \"reason\": \"covered\", \"required_documents\": [\"bill\"]\x7d"

/-- Its decoded value. -/
def ccVal : JValue :=
  .obj [("decision", .str "Eligible"), ("reason", .str "covered"),
    ("required_documents", .arr [.str "bill"])]

/-- A stubbed in-shape answer for /recommend-policy. -/
def rpJson : String := "\x7b\"recommendations\": []\x7d"

/-- Its decoded value. -/
def rpVal : JValue := .obj [("recommendations", .arr [])]

/-- A stubbed in-shape answer for /find-hospitals. -/
def fhJson : String := "\x7b\"hospitals\": []\x7d"

/-- Its decoded value. -/
def fhVal : JValue := .obj [("hospitals", .arr [])]

/-- A stubbed in-shape answer for /analytics. -/
def anJson : String :=
  "\x7b\"claim_status_distribution\": \x7b\x7d, \"monthly_claims\": \x7b\x7d, \"key_metrics\": \x7b\x7d\x7d"

/-- Its decoded value. -/
def anVal : JValue :=
  .obj [("claim_status_distribution", .obj []), ("monthly_claims", .obj []),
    ("key_metrics", .obj [])]

set_option maxRecDepth 8000 in
theorem spec_C7_witness :
    check_claim (some "k") (netOk ccJson) "Surgery" "policy context" none = (true, .ok ccVal)
    ∧ recommend_policy (some "k") (netOk rpJson) "30" "F" "none" "5L" "8000" =
        (true, .ok rpVal)
    ∧ find_hospitals (some "k") (netOk fhJson) "Pune" = (true, .ok fhVal)
    ∧ get_analytics_data (some "k") (netOk anJson) = (true, .ok anVal) :=
  ⟨spec_C7_structured_passthrough.1 (some "k") (netOk ccJson) "Surgery" "policy context"
      none ccJson ccVal rfl rfl rfl,
   spec_C7_structured_passthrough.2.1 (some "k") (netOk rpJson) "30" "F" "none" "5L"
      "8000" rpJson rpVal rfl rfl rfl,
   spec_C7_structured_passthrough.2.2.1 (some "k") (netOk fhJson) "Pune" fhJson fhVal
      rfl rfl rfl,
   spec_C7_structured_passthrough.2.2.2 (some "k") (netOk anJson) anJson anVal
      rfl rfl rfl⟩

/-- C8: whenever the gateway answers a structured endpoint with text
that does not decode as JSON, the handler fails with HTTP 500 "AI did
not return valid JSON." — the same single error for all four endpoints,
with no partial result, recovery or retry. -/
theorem spec_C8_invalid_json_gives_500 :
    (∀ (key : Option String) (net : NetBehavior) (ct dc : String) (b : Option Bill)
      (s : String),
      call_gemini_api key net (check_claim_prompt ct dc b) true = (true, .ok s) →
      json_loads s = none →
      check_claim key net ct dc b = (true, .error ⟨500, "AI did not return valid JSON."⟩))
  ∧ (∀ (key : Option String) (net : NetBehavior) (a g hc cov bu : String) (s : String),
      call_gemini_api key net (recommend_policy_prompt a g hc cov bu) true = (true, .ok s) →
      json_loads s = none →
      recommend_policy key net a g hc cov bu =
        (true, .error ⟨500, "AI did not return valid JSON."⟩))
  ∧ (∀ (key : Option String) (net : NetBehavior) (loc : String) (s : String),
      call_gemini_api key net (find_hospitals_prompt loc) true = (true, .ok s) →
      json_loads s = none →
      find_hospitals key net loc = (true, .error ⟨500, "AI did not return valid JSON."⟩))
  ∧ (∀ (key : Option String) (net : NetBehavior) (s : String),
      call_gemini_api key net analytics_prompt true = (true, .ok s) →
      json_loads s = none →
      get_analytics_data key net = (true, .error ⟨500, "AI did not return valid JSON."⟩)) := by
  refine ⟨fun key net ct dc b s hgw hjson => ?_,
    fun key net a g hc cov bu s hgw hjson => ?_,
    fun key net loc s hgw hjson => ?_,
    fun key net s hgw hjson => ?_⟩
  · unfold check_claim
    rw [hgw]
    simp only [parse_structured, hjson]
  · unfold recommend_policy
    rw [hgw]
    simp only [parse_structured, hjson]
  · unfold find_hospitals
    rw [hgw]
    simp only [parse_structured, hjson]
  · unfold get_analytics_data
    rw [hgw]
    simp only [parse_structured, hjson]

theorem spec_C8_witness :
    check_claim (some "k") (netOk "not valid json") "Surgery" "ctx" none =
      (true, .error ⟨500, "AI did not return valid JSON."⟩)
    ∧ recommend_policy (some "k") (netOk "not valid json") "30" "F" "none" "5L" "8000" =
      (true, .error ⟨500, "AI did not return valid JSON."⟩)
    ∧ find_hospitals (some "k") (netOk "not valid json") "Pune" =
      (true, .error ⟨500, "AI did not return valid JSON."⟩)
    ∧ get_analytics_data (some "k") (netOk "not valid json") =
      (true, .error ⟨500, "AI did not return valid JSON."⟩) :=
  ⟨spec_C8_invalid_json_gives_500.1 (some "k") (netOk "not valid json") "Surgery" "ctx"
      none "not valid json" rfl rfl,
   spec_C8_invalid_json_gives_500.2.1 (some "k") (netOk "not valid json") "30" "F"
      "none" "5L" "8000" "not valid json" rfl rfl,
   spec_C8_invalid_json_gives_500.2.2.1 (some "k") (netOk "not valid json") "Pune"
      "not valid json" rfl rfl,
   spec_C8_invalid_json_gives_500.2.2.2 (some "k") (netOk "not valid json")
      "not valid json" rfl rfl⟩

/-- C9: two /check-claim requests that agree on claim_type and
document_context and both attach a bill produce the identical prompt and
the identical handler behavior, whatever the two bills' filenames or
byte contents are: the bill enters the handler only through its
presence. -/
theorem spec_C9_bill_content_never_read (key : Option String) (net : NetBehavior)
    (ct dc : String) (b1 b2 : Bill) :
    check_claim_prompt ct dc (some b1) = check_claim_prompt ct dc (some b2)
    ∧ check_claim key net ct dc (some b1) = check_claim key net ct dc (some b2) :=
  ⟨rfl, rfl⟩

/-- C10: on every successful /upload-doc request the prompt sent to the
gateway is the summary template followed by only the first 8000
characters of the extracted text, while the full_text field of the
response is the whole extracted text, untruncated. -/
theorem spec_C10_prompt_truncated_fulltext_whole (key : Option String)
    (net : NetBehavior) (fitz : FitzBehavior) (fn : String) (bytes : List Nat)
    (pages : List String) (summary : String) (hf : fitz bytes = .ok pages)
    (hne : extract_text pages ≠ "")
    (hgw : call_gemini_api key net (upload_summary_prompt (extract_text pages)) false =
      (true, .ok summary)) :
    upload_summary_prompt (extract_text pages) =
      "Summarize the following insurance policy in bullet points:\n\n"
        ++ (extract_text pages).take 8000
    ∧ upload_doc key net fitz fn "application/pdf" bytes =
        (true, .ok ⟨"success", fn, summary, extract_text pages⟩) :=
  ⟨rfl, upload_doc_gateway_ok key net fitz fn bytes pages summary hf hne hgw⟩

/-- A single long page for the witness instantiation. -/
def longPage : String := String.mk (List.replicate 2000 'a')

set_option maxRecDepth 20000 in
theorem spec_C10_witness :
    upload_summary_prompt (extract_text [longPage]) =
      "Summarize the following insurance policy in bullet points:\n\n"
        ++ (extract_text [longPage]).take 8000
    ∧ upload_doc (some "k") (netOk "- summary") (fitzPages [longPage]) "big.pdf"
        "application/pdf" [1] =
        (true, .ok ⟨"success", "big.pdf", "- summary", extract_text [longPage]⟩) :=
  spec_C10_prompt_truncated_fulltext_whole (some "k") (netOk "- summary")
    (fitzPages [longPage]) "big.pdf" [1] [longPage] "- summary" rfl
    (by decide) rfl
